/-
Verification of the action orchestration and resilience engine of the
AoaCloudePunchIO repository: a shallow embedding in Lean 4 of the
circuit breaker and retry handler (src/retry_handler.py), the punch
executor and confirmation gate (src/punch_clock/executor.py), the result
verifier (src/punch_clock/verifier.py), the punch flow orchestration
(src/punch_clock/service.py) and the webhook notification dispatch
(src/webhook/manager.py, src/webhook/providers/base.py), together with
theorems settling the specified properties of those components.

Modelling conventions: machine time is Nat seconds; Python float delays
are rationals; fallible calls are Except values supplied as inputs to
the embedded functions; page and network interactions are abstracted as
environment records holding the values the Python code would read back.
-/

import Mathlib

/-! ## String helpers (Python `needle in haystack`, `.lower()`, `.strip()`) -/

/-- Is `needle` a contiguous sublist of `hay`?  Models the Python
substring test `needle in hay`. -/
def listInfix (needle : List Char) : List Char → Bool
  | [] => needle.isEmpty
  | c :: rest => needle.isPrefixOf (c :: rest) || listInfix needle rest

/-- Python `needle in hay` on strings. -/
def strContains (hay needle : String) : Bool :=
  listInfix needle.data hay.data

/-- Python `s.lower()` (sufficient for the ASCII keywords it is applied to). -/
def lowerStr (s : String) : String :=
  ⟨s.data.map Char.toLower⟩

/-- Python `s.strip().lower()` as used on the interactive confirmation input. -/
def stripLower (s : String) : String :=
  lowerStr s.trim

/-! ## CircuitBreaker (src/retry_handler.py, class CircuitBreaker) -/

/-- The three circuit states, the string field `self.state` of the Python
class (CLOSED, OPEN, HALF_OPEN). -/
inductive CircuitState
  | Closed
  | Open
  | HalfOpen
deriving DecidableEq, Repr

/-- State of one CircuitBreaker instance.  Timestamps are Nat seconds. -/
structure CircuitBreaker where
  failure_threshold : Nat
  recovery_timeout : Nat
  failure_count : Nat
  last_failure_time : Option Nat
  state : CircuitState
deriving DecidableEq, Repr

/-- `CircuitBreaker.__init__`: closed, zero failures, no failure time. -/
def CircuitBreaker.init (threshold timeout : Nat) : CircuitBreaker :=
  { failure_threshold := threshold
    recovery_timeout := timeout
    failure_count := 0
    last_failure_time := none
    state := .Closed }

/-- The Python code compares `(datetime.now() - last).seconds`, the seconds
component of the normalized timedelta, not `total_seconds()`.  For a
nonnegative whole-second delta that component is `(now - last) % 86400`. -/
def deltaSeconds (now last : Nat) : Nat :=
  (now - last) % 86400

/-- `CircuitBreaker.can_execute` at time `now`: returns the boolean result
and the updated breaker (the OPEN branch mutates `state` to HALF_OPEN).
The OPEN state with no recorded failure time is unreachable from `init`
(every entry to OPEN records a failure time); Python would raise there,
which we model as a denial without a state change. -/
def can_execute (now : Nat) (cb : CircuitBreaker) : Bool × CircuitBreaker :=
  match cb.state with
  | .Closed => (true, cb)
  | .Open =>
    match cb.last_failure_time with
    | some t =>
      if cb.recovery_timeout ≤ deltaSeconds now t then
        (true, { cb with state := .HalfOpen })
      else
        (false, cb)
    | none => (false, cb)
  | .HalfOpen => (true, cb)

/-- `CircuitBreaker.record_success`: reset the failure count, close the
circuit, clear the last failure time. -/
def record_success (cb : CircuitBreaker) : CircuitBreaker :=
  { cb with failure_count := 0, state := .Closed, last_failure_time := none }

/-- `CircuitBreaker.record_failure` at time `now`; `isExpected` models
`isinstance(exception, self.expected_exception)`. -/
def record_failure (now : Nat) (isExpected : Bool) (cb : CircuitBreaker) : CircuitBreaker :=
  if isExpected then
    let cb2 := { cb with failure_count := cb.failure_count + 1, last_failure_time := some now }
    if cb.failure_threshold ≤ cb2.failure_count then
      { cb2 with state := .Open }
    else
      cb2
  else
    cb

/-- One call on the breaker: a `can_execute` probe at a given time, a
recorded success, or a recorded failure at a given time. -/
inductive CBEvent
  | canExec (now : Nat)
  | recSuccess
  | recFailure (now : Nat) (isExpected : Bool)
deriving DecidableEq, Repr

/-- Effect of one call on the breaker state. -/
def cbStep (e : CBEvent) (cb : CircuitBreaker) : CircuitBreaker :=
  match e with
  | .canExec now => (can_execute now cb).2
  | .recSuccess => record_success cb
  | .recFailure now isExp => record_failure now isExp cb

/-- Run a sequence of calls from a starting breaker. -/
def cbRun (events : List CBEvent) (cb : CircuitBreaker) : CircuitBreaker :=
  events.foldl (fun c e => cbStep e c) cb

/-- The circuit states visited along a sequence of calls (including the
starting state). -/
def cbTraceStates (events : List CBEvent) (cb : CircuitBreaker) : List CircuitState :=
  match events with
  | [] => [cb.state]
  | e :: rest => cb.state :: cbTraceStates rest (cbStep e cb)

/-- The transition edges the claim allows: staying put, Closed to Open,
Open to HalfOpen, HalfOpen to Closed, HalfOpen to Open. -/
def specAllowedMove : CircuitState → CircuitState → Bool
  | .Closed, .Closed => true
  | .Open, .Open => true
  | .HalfOpen, .HalfOpen => true
  | .Closed, .Open => true
  | .Open, .HalfOpen => true
  | .HalfOpen, .Closed => true
  | .HalfOpen, .Open => true
  | _, _ => false

/-- Every adjacent pair of a state trace is an allowed move. -/
def movesAllowed : List CircuitState → Bool
  | [] => true
  | [_] => true
  | a :: b :: rest => specAllowedMove a b && movesAllowed (b :: rest)

/-! ## RetryHandler (src/retry_handler.py, class RetryHandler) -/

/-- `RetryConfig`: delays are rationals standing in for Python floats. -/
structure RetryConfig where
  max_attempts : Nat
  base_delay : ℚ
  max_delay : ℚ
  exponential_base : ℚ
  jitter : Bool
deriving DecidableEq, Repr

/-- The exception classes the retry handler distinguishes, each carrying
its `str(error)` message.  The first six are the RETRYABLE_ERRORS tuple,
the next three the NON_RETRYABLE_ERRORS tuple, the rest fall through to
the keyword scan. -/
inductive PyError
  | playwrightTimeoutError (msg : String)
  | playwrightError (msg : String)
  | networkError (msg : String)
  | browserError (msg : String)
  | connectionError (msg : String)
  | timeoutError (msg : String)
  | loginError (msg : String)
  | valueError (msg : String)
  | typeError (msg : String)
  | navigationError (msg : String)
  | punchActionError (msg : String)
  | punchClockError (msg : String)
  | genericError (msg : String)
deriving DecidableEq, Repr

/-- `str(error)`. -/
def PyError.msg : PyError → String
  | .playwrightTimeoutError m => m
  | .playwrightError m => m
  | .networkError m => m
  | .browserError m => m
  | .connectionError m => m
  | .timeoutError m => m
  | .loginError m => m
  | .valueError m => m
  | .typeError m => m
  | .navigationError m => m
  | .punchActionError m => m
  | .punchClockError m => m
  | .genericError m => m

/-- `isinstance(error, RetryHandler.NON_RETRYABLE_ERRORS)`:
(LoginError, ValueError, TypeError). -/
def isNonRetryableClass : PyError → Bool
  | .loginError _ => true
  | .valueError _ => true
  | .typeError _ => true
  | _ => false

/-- `isinstance(error, RetryHandler.RETRYABLE_ERRORS)`:
(PlaywrightTimeoutError, PlaywrightError, NetworkError, BrowserError,
ConnectionError, TimeoutError). -/
def isRetryableClass : PyError → Bool
  | .playwrightTimeoutError _ => true
  | .playwrightError _ => true
  | .networkError _ => true
  | .browserError _ => true
  | .connectionError _ => true
  | .timeoutError _ => true
  | _ => false

/-- The keyword list scanned over `str(error).lower()` for unknown errors. -/
def retryableKeywords : List String :=
  ["timeout", "connection", "network", "disconnected",
   "reset", "refused", "unreachable", "aborted"]

/-- `RetryHandler.is_retryable_error`: non-retryable classes first, then
retryable classes, then the keyword scan on the lowercased message. -/
def is_retryable_error (e : PyError) : Bool :=
  if isNonRetryableClass e then false
  else if isRetryableClass e then true
  else retryableKeywords.any (fun k => strContains (lowerStr e.msg) k)

/-- `RetryHandler.calculate_delay` for a given attempt number, with the
uniform jitter draw from `random.uniform(-0.25, 0.25)` passed in as
`jitterSample`: exponential backoff, capped at `max_delay`, jittered by
`jitterSample * delay` when enabled, clamped below by zero. -/
def calculate_delay (cfg : RetryConfig) (jitterSample : ℚ) (attempt : Nat) : ℚ :=
  let delay := cfg.base_delay * cfg.exponential_base ^ (attempt - 1)
  let capped := min delay cfg.max_delay
  let jittered := if cfg.jitter then capped + jitterSample * capped else capped
  max 0 jittered

/-- The attempt loop of `RetryHandler.retry_async`.  `f k` is the outcome
of the k-th invocation of the wrapped operation (1-based), `jit k` the
jitter draw for the delay computed after attempt k.  Returns the final
outcome, the list of slept delays in order, and the number of attempts
performed.  `remaining` counts the loop iterations left
(`max_attempts - attempt + 1`); the `remaining = 0` base case is the
fall-through `raise last_exception` after the loop (with `max_attempts = 0`
Python would raise None, modelled as a sentinel error). -/
def retry_go (cfg : RetryConfig) (f : Nat → Except PyError α) (jit : Nat → ℚ)
    (last : Option PyError) (attempt : Nat) :
    Nat → Except PyError α × List ℚ × Nat
  | 0 => (.error (last.getD (.typeError "exceptions must derive from BaseException")), [], 0)
  | remaining + 1 =>
    match f attempt with
    | .ok v => (.ok v, [], 1)
    | .error e =>
      if is_retryable_error e = false then
        (.error e, [], 1)
      else if remaining = 0 then
        (.error e, [], 1)
      else
        let d := calculate_delay cfg (jit attempt) attempt
        let rest := retry_go cfg f jit (some e) (attempt + 1) remaining
        (rest.1, d :: rest.2.1, rest.2.2 + 1)

/-- `RetryHandler.retry_async`: run the attempt loop from attempt 1. -/
def retry_async (cfg : RetryConfig) (f : Nat → Except PyError α) (jit : Nat → ℚ) :
    Except PyError α × List ℚ × Nat :=
  retry_go cfg f jit none 1 cfg.max_attempts

/-! ## Data model (src/models.py) -/

/-- `PunchAction` enum: sign in, sign out, or the simulate marker. -/
inductive PunchAction
  | SIGN_IN
  | SIGN_OUT
  | SIMULATE
deriving DecidableEq, Repr

/-- The `"簽到" if action == PunchAction.SIGN_IN else "簽退"` pattern the
executor and verifier repeat. -/
def actionName (a : PunchAction) : String :=
  if a = .SIGN_IN then "簽到" else "簽退"

/-- `PunchResult` (timestamp as Nat seconds; screenshot path omitted: no
claim concerns it). -/
structure PunchResult where
  success : Bool
  action : PunchAction
  timestamp : Nat
  message : String
  server_response : Option String := none
  is_simulation : Bool
deriving DecidableEq, Repr

/-- The status snapshot dict built by `StatusChecker.check_punch_page_status`.
The Python value is an open dict read with `.get` and defaults, so each
field is optional. -/
structure PageStatus where
  error : Option String := none
  sign_in_available : Option Bool := none
  sign_out_available : Option Bool := none
deriving DecidableEq, Repr

/-! ## ResultVerifier (src/punch_clock/verifier.py) -/

/-- The dict returned by `ResultVerifier.verify_punch_result`.  Its
`success` entry is `Option Bool` because `_check_toast_messages` can
return the Python value None for it. -/
structure VerifyOutcome where
  success : Option Bool
  message : String
  server_response : Option String
deriving DecidableEq, Repr

/-- What the page shows during one tick of the verifier poll loop:
the text of the first visible element matching a success indicator
selector (if any), likewise for the error indicator selectors, and the
texts of the visible non-empty ion-toast elements in DOM order. -/
structure TickState where
  successInd : Option String := none
  errorInd : Option String := none
  toasts : List String := []
deriving DecidableEq, Repr

/-- `ResultVerifier._check_toast_messages`: the first toast whose text
mentions the action name or the word 打卡 decides the result, classified
by the keywords 成功 (success), 失敗 or 錯誤 (failure); with neither
keyword the Python code returns `success=None`. -/
def check_toast_messages (aname : String) : List String → Option VerifyOutcome
  | [] => none
  | t :: rest =>
    if t ≠ "" ∧ (strContains t aname ∨ strContains t "打卡") then
      if strContains t "成功" then
        some { success := some true, message := aname ++ " 成功", server_response := some t }
      else if strContains t "失敗" ∨ strContains t "錯誤" then
        some { success := some false, message := aname ++ " 失敗", server_response := some t }
      else
        some { success := none, message := aname ++ " 結果: " ++ t, server_response := some t }
    else
      check_toast_messages aname rest

/-- `ResultVerifier._verify_by_button_state`: the state-diff fallback.
`status` is the outcome of the fresh `check_punch_page_status` call; an
exception there is caught and falls through to the timeout result.  For
the SIMULATE action the Python if/elif matches neither branch and falls
through to the timeout result as well. -/
def verify_by_button_state (action : PunchAction) (status : Except String PageStatus) :
    VerifyOutcome :=
  let aname := actionName action
  let timeoutResult : VerifyOutcome :=
    { success := some false, message := aname ++ " 結果驗證超時", server_response := none }
  match status with
  | .error _ => timeoutResult
  | .ok st =>
    match action with
    | .SIGN_IN =>
      if st.sign_in_available.getD true = false ∧ st.sign_out_available.getD false = true then
        { success := some true, message := "根據按鈕狀態判斷簽到成功",
          server_response := some "按鈕狀態已更新" }
      else
        { success := some false, message := "根據按鈕狀態判斷簽到可能失敗",
          server_response := some "按鈕狀態未如預期更新" }
    | .SIGN_OUT =>
      if st.sign_out_available.getD true = false then
        { success := some true, message := "根據按鈕狀態判斷簽退成功",
          server_response := some "按鈕狀態已更新" }
      else
        { success := some false, message := "根據按鈕狀態判斷簽退可能失敗",
          server_response := some "按鈕狀態未如預期更新" }
    | .SIMULATE => timeoutResult

/-- The poll loop of `ResultVerifier.verify_punch_result`: each tick checks
the success indicators, then the error indicators, then the toast scan;
the first hit of any category returns.  When the tick budget is exhausted
the button-state fallback decides. -/
def verify_loop (action : PunchAction) (finalStatus : Except String PageStatus) :
    List TickState → VerifyOutcome
  | [] => verify_by_button_state action finalStatus
  | tick :: rest =>
    let aname := actionName action
    match tick.successInd with
    | some txt => { success := some true, message := aname ++ " 成功", server_response := some txt }
    | none =>
      match tick.errorInd with
      | some txt => { success := some false, message := aname ++ " 失敗", server_response := some txt }
      | none =>
        match check_toast_messages aname tick.toasts with
        | some r => r
        | none => verify_loop action finalStatus rest

/-- `ResultVerifier.verify_punch_result` over an abstract timeline: `ticks`
lists the page state at each 0.5 second poll tick within the timeout
(20 ticks for the default timeout of 10000 ms), `finalStatus` the status
snapshot the fallback would read after the poll exhausts. -/
def verify_punch_result (action : PunchAction) (ticks : List TickState)
    (finalStatus : Except String PageStatus) : VerifyOutcome :=
  verify_loop action finalStatus ticks

/-! ## PunchExecutor (src/punch_clock/executor.py) -/

/-- The page interactions one executor call can perform, abstracted to the
values the Python code reads back: whether `wait_for_selector` raised
(with its message), whether `query_selector` found the button, its
visibility and enabled state, whether `page.click` raised, and what the
verifier would observe afterwards. -/
structure PageEnv where
  waitRaises : Option String := none
  buttonFound : Bool := true
  isVisible : Bool := true
  isEnabled : Bool := true
  clickRaises : Option String := none
  verifyTicks : List TickState := []
  verifyStatus : Except String PageStatus := .ok {}
deriving Repr

/-- The dict returned by `PunchExecutor._check_button_availability`. -/
structure ButtonCheck where
  available : Bool
  message : String
deriving DecidableEq, Repr

/-- `PunchExecutor._check_button_availability`: an exception while waiting
for the button is caught into an unavailable result; otherwise the
missing, invisible and disabled cases each produce their message. -/
def check_button_availability (env : PageEnv) (action : PunchAction) : ButtonCheck :=
  let aname := actionName action
  match env.waitRaises with
  | some e => { available := false, message := "檢查按鈕時發生錯誤: " ++ e }
  | none =>
    if env.buttonFound = false then
      { available := false, message := "找不到 " ++ aname ++ " 按鈕" }
    else if env.isVisible = false then
      { available := false, message := aname ++ " 按鈕不可見" }
    else if env.isEnabled = false then
      { available := false, message := aname ++ " 按鈕不可用" }
    else
      { available := true, message := aname ++ " 按鈕可用" }

/-- Placeholder for the pydantic validation message raised when
`PunchResult(success=None, ...)` is constructed; the exact text does not
matter to any claim. -/
def pydanticNoneMsg : String := "validation error for PunchResult: success"

/-- `PunchExecutor._execute_real_punch`.  The second component counts the
`page.click` calls issued (the real state-mutating click).  A click that
raises is still a click call; the surrounding except turns it into a
failure result.  When the verifier returns `success=None` the
`PunchResult` constructor raises (success is a strict bool field) and the
except branch catches that too. -/
def execute_real_punch (env : PageEnv) (action : PunchAction) (start_time : Nat) :
    PunchResult × Nat :=
  let bc := check_button_availability env action
  if bc.available = false then
    ({ success := false, action := action, timestamp := start_time,
       message := bc.message, is_simulation := false }, 0)
  else
    match env.clickRaises with
    | some e =>
      ({ success := false, action := action, timestamp := start_time,
         message := "執行時發生錯誤: " ++ e, is_simulation := false }, 1)
    | none =>
      let v := verify_punch_result action env.verifyTicks env.verifyStatus
      match v.success with
      | some b =>
        ({ success := b, action := action, timestamp := start_time,
           message := v.message, server_response := v.server_response,
           is_simulation := false }, 1)
      | none =>
        ({ success := false, action := action, timestamp := start_time,
           message := "執行時發生錯誤: " ++ pydanticNoneMsg, is_simulation := false }, 1)

/-- `PunchExecutor._execute_simulated_punch`: checks button availability,
never clicks.  `is_simulation_arg` is the `not real_punch` argument that
only selects the message text; the result field `is_simulation` is always
true on this path. -/
def execute_simulated_punch (env : PageEnv) (action : PunchAction) (start_time : Nat)
    (is_simulation_arg : Bool) : PunchResult × Nat :=
  let bc := check_button_availability env action
  if bc.available = false then
    ({ success := false, action := action, timestamp := start_time,
       message := bc.message, is_simulation := true }, 0)
  else
    ({ success := true, action := action, timestamp := start_time,
       message := if is_simulation_arg then "模擬 " ++ actionName action ++ " 成功"
                  else "用戶取消真實操作，轉為模擬模式",
       is_simulation := true }, 0)

/-- `PunchExecutor.execute_punch_action`: the real path runs only when
`real_punch and confirm`; otherwise the simulated path runs with
`not real_punch` as its message selector. -/
def execute_punch_action (env : PageEnv) (action : PunchAction)
    (real_punch confirm : Bool) (start_time : Nat) : PunchResult × Nat :=
  if real_punch && confirm then
    execute_real_punch env action start_time
  else
    execute_simulated_punch env action start_time (!real_punch)

/-- `PunchExecutor.wait_for_punch_confirmation`: in interactive mode the
stripped, lowercased reply must be exactly "yes" (an exception while
reading input is caught into a denial); in non-interactive mode the
default is a denial. -/
def wait_for_punch_confirmation (interactive_mode : Bool)
    (userInput : Except String String) : Bool :=
  if interactive_mode then
    match userInput with
    | .ok s => stripLower s = "yes"
    | .error _ => false
  else
    false

/-! ## PunchClockService (src/punch_clock/service.py) -/

/-- What `_execute_single_action` needs of the service instance: the
interactive flag pushed into the executor, whether the executor was
initialized, the page environment behind the executor, and the
confirmation input the operator would give. -/
structure ServiceEnv where
  interactive_mode : Bool := false
  executor_init : Bool := true
  page : PageEnv := {}
  userInput : Except String String := .ok ""
deriving Repr

/-- One `execute_punch_action` invocation on the executor:
(action, real_punch, confirm). -/
abbrev ExecCall := PunchAction × Bool × Bool

/-- `PunchClockService._execute_single_action`: returns the punch result,
the list of executor invocations made, and the number of real clicks
performed.  The availability key is `sign_in_available` for SIGN_IN and
`sign_out_available` otherwise, read with `.get(key, False)`. -/
def execute_single_action (svc : ServiceEnv) (action : PunchAction) (real_punch : Bool)
    (page_status : PageStatus) (now : Nat) : PunchResult × List ExecCall × Nat :=
  let aname := actionName action
  let avail := if action = .SIGN_IN then page_status.sign_in_available.getD false
               else page_status.sign_out_available.getD false
  if avail = false then
    ({ success := false, action := action, timestamp := now,
       message := aname ++ " 按鈕不可用", is_simulation := true }, [], 0)
  else if svc.executor_init = false then
    ({ success := false, action := action, timestamp := now,
       message := "PunchExecutor 未初始化", is_simulation := true }, [], 0)
  else if real_punch then
    let confirm := wait_for_punch_confirmation svc.interactive_mode svc.userInput
    let r := execute_punch_action svc.page action true confirm now
    (r.1, [(action, true, confirm)], r.2)
  else
    let r := execute_punch_action svc.page action false false now
    (r.1, [(action, false, false)], r.2)

/-- `PunchClockService._execute_available_actions` (the no-action branch of
the standard flow): refuses real mode, otherwise simulates each available
action and aggregates. -/
def execute_available_actions (svc : ServiceEnv) (page_status : PageStatus)
    (real_punch : Bool) (now : Nat) : PunchResult × List ExecCall × Nat :=
  if real_punch then
    ({ success := false, action := .SIMULATE, timestamp := now,
       message := "真實打卡模式必須指定具體動作", is_simulation := false }, [], 0)
  else if svc.executor_init = false then
    ({ success := false, action := .SIMULATE, timestamp := now,
       message := "PunchExecutor 未初始化", is_simulation := true }, [], 0)
  else
    let r1 := if page_status.sign_in_available.getD false then
        [(execute_punch_action svc.page .SIGN_IN false false now, (PunchAction.SIGN_IN, false, false))]
      else []
    let r2 := if page_status.sign_out_available.getD false then
        [(execute_punch_action svc.page .SIGN_OUT false false now, (PunchAction.SIGN_OUT, false, false))]
      else []
    let results := r1 ++ r2
    if results.isEmpty then
      ({ success := false, action := .SIMULATE, timestamp := now,
         message := "沒有可用的打卡按鈕", is_simulation := true }, [], 0)
    else
      let names := results.map (fun r => actionName r.1.1.action)
      ({ success := results.all (fun r => r.1.1.success), action := .SIMULATE, timestamp := now,
         message := "測試完成: " ++ String.intercalate ", " names, is_simulation := true },
       results.map (fun r => r.2), (results.map (fun r => r.1.2)).sum)

/-- `PunchClockService._create_error_result`: always a failed, simulated
result; a missing action is reported as SIMULATE. -/
def create_error_result (action : Option PunchAction) (start_time : Nat)
    (message : String) : PunchResult :=
  { success := false, action := action.getD .SIMULATE, timestamp := start_time,
    message := message, is_simulation := true }

/-- The outcomes of the steps of `_execute_standard_flow`, each an input to
the flow: whether entering the async context (browser start and base
navigation) raised, the login, navigation and status-check outcomes
(either a raised exception message or a returned value), the
initialization flags the code re-checks, the single-action environment,
the requested action and the real-punch flag. -/
structure FlowEnv where
  enterRaises : Option String := none
  auth_init : Bool := true
  login : Except String Bool := .ok true
  nav_init : Bool := true
  nav : Except String Bool := .ok true
  status_init : Bool := true
  statusCheck : Except String PageStatus := .ok {}
  svc : ServiceEnv := {}
  action : Option PunchAction := none
  real_punch : Bool := false
deriving Repr

/-- `PunchClockService._execute_standard_flow`: the guarded step sequence;
every early exit goes through `create_error_result`, and the outer except
catches any raised step into `create_error_result` as well. -/
def execute_standard_flow (env : FlowEnv) (start_time : Nat) : PunchResult :=
  let body : Except String PunchResult :=
    match env.enterRaises with
    | some e => .error e
    | none =>
      if env.auth_init = false then
        .ok (create_error_result env.action start_time "AuthHandler 未初始化")
      else
        match env.login with
        | .error e => .error e
        | .ok loginOk =>
          if loginOk = false then
            .ok (create_error_result env.action start_time "登入失敗")
          else if env.nav_init = false then
            .ok (create_error_result env.action start_time "NavigationHandler 未初始化")
          else
            match env.nav with
            | .error e => .error e
            | .ok navOk =>
              if navOk = false then
                .ok (create_error_result env.action start_time "導航到打卡頁面失敗")
              else if env.status_init = false then
                .ok (create_error_result env.action start_time "StatusChecker 未初始化")
              else
                match env.statusCheck with
                | .error e => .error e
                | .ok st =>
                  match st.error with
                  | some e =>
                    .ok (create_error_result env.action start_time ("頁面狀態檢查失敗: " ++ e))
                  | none =>
                    match env.action with
                    | some a => .ok (execute_single_action env.svc a env.real_punch st start_time).1
                    | none => .ok (execute_available_actions env.svc st env.real_punch start_time).1
  match body with
  | .ok r => r
  | .error e => create_error_result env.action start_time ("執行異常: " ++ e)

/-- A failure of any step before the punch execution: a raised context
entry, an uninitialized handler, a login failure or exception, a
navigation failure or exception, or a status check exception or reported
error. -/
def prePunchFailure (env : FlowEnv) : Prop :=
  env.enterRaises.isSome ∨ env.auth_init = false ∨ env.login ≠ .ok true ∨
  env.nav_init = false ∨ env.nav ≠ .ok true ∨ env.status_init = false ∨
  (∀ st : PageStatus, env.statusCheck = .ok st → st.error.isSome)

/-! ## Webhook dispatch (src/webhook/manager.py, src/webhook/providers/base.py) -/

/-- `NotificationLevel` enum. -/
inductive NotificationLevel
  | success
  | warning
  | error
  | info
deriving DecidableEq, Repr

/-- The fields of `WebhookConfig` the dispatch logic reads (urls, timeout
and the rate-limit delay only affect transport and sleeping). -/
structure WebhookConfig where
  enabled : Bool := false
  notify_success : Bool := true
  notify_failure : Bool := true
  notify_scheduler : Bool := true
  notify_errors : Bool := true
  retry_attempts : Nat := 3
deriving DecidableEq, Repr

/-- The fields of `WebhookMessage` the dispatch logic reads. -/
structure WebhookMessage where
  title : String
  message : String
  level : NotificationLevel
deriving DecidableEq, Repr

/-- `WebhookResponse`. -/
structure WebhookResponse where
  success : Bool
  provider : String
  status_code : Option Nat := none
  error_message : Option String := none
deriving DecidableEq, Repr

/-- `WebhookProvider.should_notify`: disabled config denies; otherwise the
per-level toggle decides (the dict lookup has a default of True but every
enum value is in the map). -/
def should_notify (cfg : WebhookConfig) (m : WebhookMessage) : Bool :=
  if cfg.enabled = false then false
  else
    match m.level with
    | .success => cfg.notify_success
    | .error => cfg.notify_failure
    | .warning => cfg.notify_errors
    | .info => cfg.notify_scheduler

/-- One configured provider: its name, its config, and the outcome of each
send attempt (1-based) — either a raised exception message or a returned
response. -/
structure Provider where
  name : String
  cfg : WebhookConfig
  attempts : Nat → Except String WebhookResponse

/-- The loop of `WebhookProvider.send_with_retry`: a successful response
returns immediately; a failed response or any caught exception retries
(only exceptions update `last_exception`); after the loop a synthetic
failure response carries the retry-exhausted message. -/
def send_with_retry_go (p : Provider) (last : Option String) (attempt : Nat) :
    Nat → WebhookResponse
  | 0 =>
    { success := false, provider := p.name,
      error_message := some ("Webhook 發送失敗，已重試 " ++ toString p.cfg.retry_attempts ++ " 次"
        ++ (match last with | some e => ": " ++ e | none => "")) }
  | remaining + 1 =>
    match p.attempts attempt with
    | .ok resp =>
      if resp.success then resp
      else send_with_retry_go p last (attempt + 1) remaining
    | .error e => send_with_retry_go p (some e) (attempt + 1) remaining

/-- `WebhookProvider.send_with_retry`: run the attempt loop from attempt 1.
Total by construction, mirroring the catch-all except in the source. -/
def send_with_retry (p : Provider) : WebhookResponse :=
  send_with_retry_go p none 1 p.cfg.retry_attempts

/-- `WebhookManager.send_notification`: one `send_with_retry` task per
provider passing `should_notify`, results gathered in order.  The
`isinstance(response, Exception)` branch after the gather is dead in this
model because `send_with_retry` never raises (its loop body catches every
exception), so dispatch never raises to the caller. -/
def send_notification (providers : List Provider) (m : WebhookMessage) :
    List WebhookResponse :=
  (providers.filter (fun p => should_notify p.cfg m)).map send_with_retry

/-- A send attempt that did not produce a successful response: either it
raised, or it returned a response with `success=False`. -/
def failedAttempt (r : Except String WebhookResponse) : Prop :=
  (∃ e, r = .error e) ∨ (∃ resp, r = .ok resp ∧ resp.success = false)

/-- The amended transition discipline for one breaker call, following the
claimed edge list plus the Open to Closed edge on a recorded success that
the code also performs: either the state is unchanged, or the move is
Closed to Open on a recorded failure reaching the threshold, HalfOpen to
Open on a recorded failure reaching the threshold, Open to HalfOpen on a
probe whose elapsed seconds component reached the recovery timeout,
HalfOpen to Closed on a recorded success, or Open to Closed on a recorded
success. -/
def specAmendedMoveOk (cb : CircuitBreaker) (e : CBEvent) : Bool :=
  let cb2 := cbStep e cb
  if cb2.state = cb.state then true
  else
    match cb.state, cb2.state, e with
    | .Closed, .Open, .recFailure _ isExp =>
      isExp && decide (cb.failure_threshold ≤ cb2.failure_count)
    | .HalfOpen, .Open, .recFailure _ isExp =>
      isExp && decide (cb.failure_threshold ≤ cb2.failure_count)
    | .Open, .HalfOpen, .canExec now =>
      (match cb.last_failure_time with
       | some t => decide (cb.recovery_timeout ≤ deltaSeconds now t)
       | none => false)
    | .HalfOpen, .Closed, .recSuccess => true
    | .Open, .Closed, .recSuccess => true
    | _, _, _ => false

/-! ## Theorems -/

/-- C1: for every action, the confirmation gate consulted in
non-interactive mode denies (`wait_for_punch_confirmation` returns false
whatever the input channel holds), and `execute_punch_action` called with
`confirm = false` performs zero real clicks, for every page environment,
action and real-punch flag. -/
theorem punch_confirm_default_deny (action : PunchAction) (env : PageEnv)
    (real_punch : Bool) (userInput : Except String String) (start_time : Nat) :
    wait_for_punch_confirmation false userInput = false ∧
    (execute_punch_action env action real_punch false start_time).2 = 0 := by
  refine ⟨rfl, ?_⟩
  unfold execute_punch_action
  rw [Bool.and_false]
  simp only [Bool.false_eq_true, if_false]
  unfold execute_simulated_punch
  by_cases h : (check_button_availability env action).available = false <;> simp [h]

/-- C2 counterexample: a breaker with threshold 1 and recovery timeout 60
that failed at time 0 is Open; at time 60 the first `can_execute` returns
true and moves to HalfOpen, but a second `can_execute` before any
`record_success` or `record_failure` returns true again, refuting the
claim that true is returned exactly once. -/
theorem circuit_halfopen_true_twice_counterexample :
    (can_execute 60 (record_failure 0 true (CircuitBreaker.init 1 60))).1 = true ∧
    (can_execute 60 (record_failure 0 true (CircuitBreaker.init 1 60))).2.state =
      CircuitState.HalfOpen ∧
    (can_execute 60 (can_execute 60 (record_failure 0 true (CircuitBreaker.init 1 60))).2).1 =
      true := by
  decide

/-- C2 amended: while Open with a failure recorded at time `t`, every
`can_execute` call before `recovery_timeout` has elapsed returns false and
leaves the breaker unchanged (more generally whenever the seconds
component `(now - t) % 86400` of the elapsed timedelta is below the
timeout, since the code compares `.seconds`); once that component reaches
`recovery_timeout` the call returns true and transitions to HalfOpen; and
every call in HalfOpen before any `record_success` or `record_failure`
returns true as well (not just the first one). -/
theorem circuit_open_recovery_behavior (cb : CircuitBreaker) (now t : Nat)
    (hs : cb.state = CircuitState.Open) (hl : cb.last_failure_time = some t)
    (_hmono : t ≤ now) :
    (now - t < cb.recovery_timeout → can_execute now cb = (false, cb)) ∧
    (deltaSeconds now t < cb.recovery_timeout → can_execute now cb = (false, cb)) ∧
    (cb.recovery_timeout ≤ deltaSeconds now t →
      (can_execute now cb).1 = true ∧
      (can_execute now cb).2.state = CircuitState.HalfOpen) ∧
    (∀ cb2 : CircuitBreaker, cb2.state = CircuitState.HalfOpen →
      ∀ m : Nat, can_execute m cb2 = (true, cb2)) := by
  have hd : deltaSeconds now t ≤ now - t := Nat.mod_le _ _
  refine ⟨?_, ?_, ?_, ?_⟩
  · intro h
    have hlt : deltaSeconds now t < cb.recovery_timeout := by omega
    simp [can_execute, hs, hl, Nat.not_le.mpr hlt]
  · intro hlt
    simp [can_execute, hs, hl, Nat.not_le.mpr hlt]
  · intro hge
    simp [can_execute, hs, hl, hge]
  · intro cb2 h2 m
    simp [can_execute, h2]

/-- Witness for the C2 amended theorem at a concrete breaker: failed at
time 0 with timeout 60, probed at time 10: denial without a state
change. -/
theorem circuit_open_recovery_behavior_witness :
    can_execute 10 (record_failure 0 true (CircuitBreaker.init 1 60)) =
      (false, record_failure 0 true (CircuitBreaker.init 1 60)) :=
  (circuit_open_recovery_behavior (record_failure 0 true (CircuitBreaker.init 1 60))
    10 0 (by decide) (by decide) (by decide)).1 (by decide)

/-- C4 counterexample: starting Closed with threshold 1, the call sequence
record_failure then record_success visits Closed, Open, Closed — the
Open to Closed move is not among the four claimed edges, so the claim
that no other transition between distinct states ever occurs is false. -/
theorem circuit_edge_counterexample :
    cbTraceStates [CBEvent.recFailure 0 true, CBEvent.recSuccess] (CircuitBreaker.init 1 60) =
      [CircuitState.Closed, CircuitState.Open, CircuitState.Closed] ∧
    movesAllowed [CircuitState.Closed, CircuitState.Open, CircuitState.Closed] = false := by
  decide

/-- C4 amended: every single call on any breaker either leaves the state
unchanged or moves along one of the edges Closed to Open (recorded
failure reaching the threshold), HalfOpen to Open (recorded failure
reaching the threshold), Open to HalfOpen (probe after the elapsed
seconds component reached the recovery timeout), HalfOpen to Closed
(recorded success), or Open to Closed (recorded success) — the last edge
being the one the original claim omits. -/
theorem circuit_transition_edges (cb : CircuitBreaker) (e : CBEvent) :
    specAmendedMoveOk cb e = true := by
  cases e with
  | canExec now =>
    cases hstate : cb.state with
    | Closed => simp [specAmendedMoveOk, cbStep, can_execute, hstate]
    | HalfOpen => simp [specAmendedMoveOk, cbStep, can_execute, hstate]
    | Open =>
      cases hl : cb.last_failure_time with
      | none => simp [specAmendedMoveOk, cbStep, can_execute, hstate, hl]
      | some t =>
        by_cases h : cb.recovery_timeout ≤ deltaSeconds now t <;>
          simp [specAmendedMoveOk, cbStep, can_execute, hstate, hl, h]
  | recSuccess =>
    cases hstate : cb.state <;>
      simp [specAmendedMoveOk, cbStep, record_success, hstate]
  | recFailure now isExp =>
    cases isExp with
    | false => simp [specAmendedMoveOk, cbStep, record_failure]
    | true =>
      by_cases h : cb.failure_threshold ≤ cb.failure_count + 1 <;>
        cases hstate : cb.state <;>
          simp [specAmendedMoveOk, cbStep, record_failure, hstate, h]

/-- C3 counterexample: with base delay 1, backoff base 2, cap 30, no
jitter and three attempts of a permanently failing retryable operation,
the delay slept before attempt 2 is 1 (the code computes
`calculate_delay(1)` after attempt 1 fails), while the claimed formula
`min(maxDelay, baseDelay * backoffBase^(n-1))` gives 2 for n = 2. -/
theorem retry_delay_counterexample :
    (retry_async ⟨3, 1, 30, 2, false⟩
        (fun _ => (.error (.networkError "connection reset") : Except PyError Nat))
        (fun _ => 0)).2.1.get? 0 = some 1 ∧
    min (30 : ℚ) (1 * 2 ^ (2 - 1)) = 2 ∧ (1 : ℚ) ≠ 2 := by
  refine ⟨?_, by norm_num, by norm_num⟩
  simp only [retry_async, retry_go, is_retryable_error, isNonRetryableClass, isRetryableClass,
    Bool.false_eq_true, if_false, if_true]
  norm_num [calculate_delay, min_def, max_def]

/-- Position j of the delay list produced by the retry loop, when the
attempts from a through a+j all fail retryably and the loop has more than
j+1 iterations left, is the delay computed for attempt a+j. -/
theorem retry_go_delay_get (cfg : RetryConfig) (f : Nat → Except PyError α) (jit : Nat → ℚ) :
    ∀ (j a r : Nat) (last : Option PyError),
      (∀ k, a ≤ k → k ≤ a + j → ∃ e, f k = .error e ∧ is_retryable_error e = true) →
      j + 1 < r →
      (retry_go cfg f jit last a r).2.1.get? j =
        some (calculate_delay cfg (jit (a + j)) (a + j)) := by
  intro j
  induction j with
  | zero =>
    intro a r last hf hr
    obtain ⟨e, hfe, hre⟩ := hf a le_rfl (by omega)
    obtain ⟨r2, rfl⟩ : ∃ r2, r = r2 + 2 := ⟨r - 2, by omega⟩
    simp [retry_go, hfe, hre]
  | succ j ih =>
    intro a r last hf hr
    obtain ⟨e, hfe, hre⟩ := hf a le_rfl (by omega)
    obtain ⟨r2, rfl⟩ : ∃ r2, r = r2 + 2 := ⟨r - 2, by omega⟩
    have step : (retry_go cfg f jit last a (r2 + 2)).2.1 =
        calculate_delay cfg (jit a) a :: (retry_go cfg f jit (some e) (a + 1) (r2 + 1)).2.1 := by
      simp [retry_go, hfe, hre]
    rw [step]
    have := ih (a + 1) (r2 + 1) (some e)
      (fun k hk1 hk2 => hf k (by omega) (by omega)) (by omega)
    simpa [Nat.add_assoc, Nat.add_comm 1 j, Nat.add_left_comm] using this

/-- C3 amended: for every retry attempt n > 1 of an operation whose
earlier attempts all failed retryably, the delay slept before attempt n
equals `min(maxDelay, baseDelay * backoffBase^(n-2))` — exponent n-2, one
backoff step less than claimed — jittered by the sampled factor of the
uniform ±25% draw when enabled, and clamped to be never negative (the
clamp holds for every delay the handler computes). -/
theorem retry_delay_formula (cfg : RetryConfig) (f : Nat → Except PyError α) (jit : Nat → ℚ)
    (n : Nat) (h2 : 2 ≤ n) (hn : n ≤ cfg.max_attempts)
    (hf : ∀ k, 1 ≤ k → k < n → ∃ e, f k = .error e ∧ is_retryable_error e = true) :
    (retry_async cfg f jit).2.1.get? (n - 2) =
      some (max 0 (if cfg.jitter then
          min cfg.max_delay (cfg.base_delay * cfg.exponential_base ^ (n - 2)) +
            jit (n - 1) * min cfg.max_delay (cfg.base_delay * cfg.exponential_base ^ (n - 2))
        else
          min cfg.max_delay (cfg.base_delay * cfg.exponential_base ^ (n - 2)))) ∧
    ∀ (js : ℚ) (a : Nat), 0 ≤ calculate_delay cfg js a := by
  constructor
  · have hget := retry_go_delay_get cfg f jit (n - 2) 1 cfg.max_attempts none
      (fun k hk1 hk2 => hf k hk1 (by omega)) (by omega)
    have ha : 1 + (n - 2) = n - 1 := by omega
    rw [ha] at hget
    unfold retry_async
    rw [hget]
    have he : n - 1 - 1 = n - 2 := by omega
    simp [calculate_delay, he, min_comm]
  · intro js a
    unfold calculate_delay
    exact le_max_left 0 _

/-- Witness for the C3 amended theorem: base 1, backoff 2, cap 30, jitter
enabled with a sampled factor of 1/4; the delay slept before attempt 2 is
1 + 1/4 = 5/4. -/
theorem retry_delay_formula_witness :
    (retry_async ⟨3, 1, 30, 2, true⟩
        (fun _ => (.error (.networkError "x") : Except PyError Nat))
        (fun _ => (1 : ℚ) / 4)).2.1.get? 0 = some (5 / 4 : ℚ) := by
  have h := (retry_delay_formula ⟨3, 1, 30, 2, true⟩
      (fun _ => (.error (.networkError "x") : Except PyError Nat))
      (fun _ => (1 : ℚ) / 4) 2 (by norm_num) (by norm_num)
      (fun k _ _ => ⟨.networkError "x", rfl, rfl⟩)).1
  norm_num [min_def] at h
  exact h

/-- C5: for every config with at least one attempt (the data model
requires maxAttempts ≥ 1) and every operation whose first invocation
raises a non-retryable error, the retry loop performs exactly one
attempt, sleeps no delay (classification precedes the delay
computation), and re-raises that same error unchanged. -/
theorem retry_terminal_single_attempt (cfg : RetryConfig) (f : Nat → Except PyError α)
    (jit : Nat → ℚ) (e : PyError) (hmax : 1 ≤ cfg.max_attempts)
    (hf : f 1 = .error e) (hterm : is_retryable_error e = false) :
    retry_async cfg f jit = (.error e, [], 1) := by
  unfold retry_async
  obtain ⟨m, hm⟩ : ∃ m, cfg.max_attempts = m + 1 := ⟨cfg.max_attempts - 1, by omega⟩
  rw [hm]
  simp [retry_go, hf, hterm]

/-- Witness for C5: five configured attempts, a LoginError on the first
invocation: one attempt, no delays, the LoginError re-raised. -/
theorem retry_terminal_single_attempt_witness :
    retry_async ⟨5, 1, 30, 2, true⟩
        (fun _ => (.error (.loginError "bad credentials") : Except PyError Nat))
        (fun _ => 0) =
      (.error (.loginError "bad credentials"), [], 1) :=
  retry_terminal_single_attempt ⟨5, 1, 30, 2, true⟩
    (fun _ => (.error (.loginError "bad credentials") : Except PyError Nat))
    (fun _ => 0) (.loginError "bad credentials") (by norm_num) rfl rfl

/-- C6: for every requested action whose availability flag in the status
snapshot is false (under the key the code reads for that action), the
single-action flow short-circuits to a failed outcome whose message says
the button is unavailable, invoking the executor zero times and clicking
zero times. -/
theorem punch_unavailable_short_circuit (svc : ServiceEnv) (action : PunchAction)
    (real_punch : Bool) (st : PageStatus) (now : Nat)
    (h : (if action = .SIGN_IN then st.sign_in_available.getD false
          else st.sign_out_available.getD false) = false) :
    execute_single_action svc action real_punch st now =
      ({ success := false, action := action, timestamp := now,
         message := actionName action ++ " 按鈕不可用", is_simulation := true }, [], 0) := by
  unfold execute_single_action
  simp [h]

/-- Witness for C6: a snapshot reporting sign-in unavailable and a
requested real SIGN_IN short-circuits to the unavailable outcome. -/
theorem punch_unavailable_short_circuit_witness :
    execute_single_action {} .SIGN_IN true { sign_in_available := some false } 5 =
      ({ success := false, action := .SIGN_IN, timestamp := 5,
         message := actionName .SIGN_IN ++ " 按鈕不可用", is_simulation := true }, [], 0) :=
  punch_unavailable_short_circuit {} .SIGN_IN true { sign_in_available := some false } 5 rfl

/-- C7 counterexample: with the sign-in button reported disabled, a real
punch request with denied confirmation yields success = false, refuting
the claim that the degraded simulated path always yields success = true. -/
theorem simulated_punch_denied_counterexample :
    (execute_punch_action { isEnabled := false } .SIGN_IN true false 0).1.success = false := by
  rfl

/-- C7 amended: for every action and page environment in which the
button-availability check reports the button available, a real punch
request with denied confirmation does not fail the run: it degrades to
the simulated path, performs zero real clicks and yields success = true
with is_simulation = true (and the downgrade message). -/
theorem denied_confirmation_degrades (env : PageEnv) (action : PunchAction) (start : Nat)
    (h : (check_button_availability env action).available = true) :
    execute_punch_action env action true false start =
      ({ success := true, action := action, timestamp := start,
         message := "用戶取消真實操作，轉為模擬模式", is_simulation := true }, 0) := by
  unfold execute_punch_action execute_simulated_punch
  simp [h]

/-- Witness for the C7 amended theorem: the default page environment has
the button present, visible and enabled. -/
theorem denied_confirmation_degrades_witness :
    execute_punch_action {} .SIGN_IN true false 7 =
      ({ success := true, action := .SIGN_IN, timestamp := 7,
         message := "用戶取消真實操作，轉為模擬模式", is_simulation := true }, 0) :=
  denied_confirmation_degrades {} .SIGN_IN 7 rfl

/-- C8 counterexample: a tick with no success or error indicator and a
visible toast 打卡處理中 — it mentions 打卡 but carries neither a success
nor a failure keyword — makes `verify_punch_result` return a result whose
success field is None, a third value beside true and false. -/
theorem verify_success_none_counterexample :
    (verify_punch_result .SIGN_IN [{ toasts := ["打卡處理中"] }] (.ok {})).success = none := by
  rfl

/-- The state-diff fallback always produces a boolean success value. -/
theorem verify_by_button_state_success_isSome (action : PunchAction)
    (status : Except String PageStatus) :
    (verify_by_button_state action status).success.isSome = true := by
  unfold verify_by_button_state
  cases status <;> cases action <;> simp <;> split <;> simp

/-- C8 amended: the verifier's success field is a boolean except when the
poll terminates on a generic toast message that mentions the action (or
打卡) but contains neither a success nor a failure keyword; whenever the
result's success field is None, some polled tick had no success and no
error indicator and its toast scan itself produced the None result. -/
theorem verify_success_boolean_unless_generic_toast (action : PunchAction)
    (ticks : List TickState) (finalStatus : Except String PageStatus)
    (h : (verify_punch_result action ticks finalStatus).success = none) :
    ∃ tick ∈ ticks, tick.successInd = none ∧ tick.errorInd = none ∧
      ∃ r, check_toast_messages (actionName action) tick.toasts = some r ∧
        r.success = none := by
  induction ticks with
  | nil =>
    exfalso
    have hsome := verify_by_button_state_success_isSome action finalStatus
    unfold verify_punch_result verify_loop at h
    rw [h] at hsome
    simp at hsome
  | cons tick rest ih =>
    unfold verify_punch_result verify_loop at h
    dsimp only at h
    cases hsi : tick.successInd with
    | some txt => rw [hsi] at h; simp at h
    | none =>
      rw [hsi] at h
      cases hei : tick.errorInd with
      | some txt => rw [hei] at h; simp at h
      | none =>
        rw [hei] at h
        cases hct : check_toast_messages (actionName action) tick.toasts with
        | some r =>
          rw [hct] at h
          exact ⟨tick, List.mem_cons_self tick rest, hsi, hei, r, hct, h⟩
        | none =>
          rw [hct] at h
          obtain ⟨t2, ht2, h1, h2, h3⟩ := ih h
          exact ⟨t2, List.mem_cons_of_mem tick ht2, h1, h2, h3⟩

/-- Witness for the C8 amended theorem at the generic-toast input. -/
theorem verify_success_boolean_unless_generic_toast_witness :
    ∃ tick ∈ [({ toasts := ["打卡處理中"] } : TickState)],
      tick.successInd = none ∧ tick.errorInd = none ∧
      ∃ r, check_toast_messages (actionName .SIGN_IN) tick.toasts = some r ∧
        r.success = none :=
  verify_success_boolean_unless_generic_toast .SIGN_IN
    [{ toasts := ["打卡處理中"] }] (.ok {}) rfl

/-- When every remaining attempt of the loop fails (raises or returns an
unsuccessful response), `send_with_retry_go` ends in the synthetic
failure response: success = false with the retry-exhausted error text. -/
theorem send_with_retry_go_exhausted (p : Provider) :
    ∀ (r a : Nat) (last : Option String),
      (∀ k, a ≤ k → k < a + r → failedAttempt (p.attempts k)) →
      (send_with_retry_go p last a r).success = false ∧
      (send_with_retry_go p last a r).error_message.isSome = true := by
  intro r
  induction r with
  | zero => intro a last _; simp [send_with_retry_go]
  | succ r ih =>
    intro a last hall
    have ha := hall a le_rfl (by omega)
    cases hatt : p.attempts a with
    | ok resp =>
      have hfail : resp.success = false := by
        rcases ha with ⟨e, he⟩ | ⟨resp2, hr2, hs2⟩
        · rw [hatt] at he; exact absurd he (by simp)
        · rw [hatt] at hr2
          cases hr2
          exact hs2
      simp only [send_with_retry_go, hatt, hfail, Bool.false_eq_true, if_false]
      exact ih (a + 1) last (fun k hk1 hk2 => hall k (by omega) (by omega))
    | error e =>
      simp only [send_with_retry_go, hatt]
      exact ih (a + 1) (some e) (fun k hk1 hk2 => hall k (by omega) (by omega))

/-- C9: dispatching a notification returns exactly one result entry per
provider passing its notify predicate, never raising (the embedding of
`send_with_retry` is total because the source catches every exception);
and for every eligible provider whose attempts all raise or fail, its
entry is its `send_with_retry` result, carried in the returned list, with
success = false and the error text captured in error_message. -/
theorem webhook_dispatch_results (providers : List Provider) (m : WebhookMessage) :
    (send_notification providers m).length =
      (providers.filter (fun p => should_notify p.cfg m)).length ∧
    ∀ p ∈ providers, should_notify p.cfg m = true →
      send_with_retry p ∈ send_notification providers m ∧
      ((∀ k, 1 ≤ k → k ≤ p.cfg.retry_attempts → failedAttempt (p.attempts k)) →
        (send_with_retry p).success = false ∧
        (send_with_retry p).error_message.isSome = true) := by
  constructor
  · unfold send_notification
    exact List.length_map _ _
  · intro p hp hnotify
    constructor
    · unfold send_notification
      exact List.mem_map_of_mem send_with_retry (List.mem_filter.mpr ⟨hp, hnotify⟩)
    · intro hall
      unfold send_with_retry
      exact send_with_retry_go_exhausted p p.cfg.retry_attempts 1 none
        (fun k hk1 hk2 => hall k hk1 (by omega))

/-- Witness for C9: one enabled Discord-style provider whose two
configured attempts both raise; the dispatch returns its failure entry
with the exhausted-retries error message. -/
theorem webhook_dispatch_results_witness :
    (send_notification
        [⟨"discord", { enabled := true, retry_attempts := 2 }, fun _ => .error "boom"⟩]
        ⟨"title", "body", .error⟩).length = 1 ∧
    (send_with_retry
        ⟨"discord", { enabled := true, retry_attempts := 2 }, fun _ => .error "boom"⟩).success =
      false ∧
    (send_with_retry
        ⟨"discord", { enabled := true, retry_attempts := 2 }, fun _ => .error "boom"⟩).error_message.isSome =
      true := by
  have h := webhook_dispatch_results
    [⟨"discord", { enabled := true, retry_attempts := 2 }, fun _ => .error "boom"⟩]
    ⟨"title", "body", .error⟩
  have h2 := (h.2 _ (List.mem_singleton.mpr rfl) rfl).2
    (fun k _ _ => Or.inl ⟨"boom", rfl⟩)
  exact ⟨by simpa using h.1, h2.1, h2.2⟩

/-- C10: whenever any step before the punch execution fails — the context
entry raises, a handler is uninitialized, login fails or raises,
navigation fails or raises, or the status check raises or reports an
error — the standard flow returns a result with success = false and
is_simulation = true, regardless of the real-punch flag: a failed real
run is reported as a simulation. -/
theorem flow_prepunch_error_result (env : FlowEnv) (start : Nat)
    (h : prePunchFailure env) :
    (execute_standard_flow env start).success = false ∧
    (execute_standard_flow env start).is_simulation = true := by
  unfold execute_standard_flow
  dsimp only
  cases henter : env.enterRaises with
  | some e => simp [create_error_result]
  | none =>
    cases hauth : env.auth_init with
    | false => simp [create_error_result]
    | true =>
      cases hlogin : env.login with
      | error e => simp [create_error_result]
      | ok lok =>
        cases lok with
        | false => simp [create_error_result]
        | true =>
          cases hnavi : env.nav_init with
          | false => simp [create_error_result]
          | true =>
            cases hnav : env.nav with
            | error e => simp [create_error_result]
            | ok nok =>
              cases nok with
              | false => simp [create_error_result]
              | true =>
                cases hsti : env.status_init with
                | false => simp [create_error_result]
                | true =>
                  cases hst : env.statusCheck with
                  | error e => simp [create_error_result]
                  | ok st =>
                    cases hsterr : st.error with
                    | some e => simp [hsterr, create_error_result]
                    | none =>
                      exfalso
                      unfold prePunchFailure at h
                      rcases h with h | h | h | h | h | h | h
                      · rw [henter] at h; simp at h
                      · rw [hauth] at h; simp at h
                      · exact h (by rw [hlogin])
                      · rw [hnavi] at h; simp at h
                      · exact h (by rw [hnav])
                      · rw [hsti] at h; simp at h
                      · have hbad := h st (by rw [hst])
                        rw [hsterr] at hbad
                        simp at hbad

/-- Witness for C10: a failed login in real-punch mode yields a failed
result reported as a simulation. -/
theorem flow_prepunch_error_result_witness :
    (execute_standard_flow { login := .ok false, real_punch := true } 0).success = false ∧
    (execute_standard_flow { login := .ok false, real_punch := true } 0).is_simulation = true :=
  flow_prepunch_error_result { login := .ok false, real_punch := true } 0
    (Or.inr (Or.inr (Or.inl (by simp))))
